import Mathlib

/-!
Verification of the networking utilities of the shiny-vscode extension
(`src/net-utils.ts` and the proposed-file preview provider).

The TypeScript code is asynchronous and effectful, so it is shallowly
embedded as pure Lean functions over explicit environments:

* socket-event sequences model the event callbacks of `isPortOpen`, with
  JavaScript promise settle-once semantics made explicit;
* a list of locally bound ports models the loopback listener state used by
  `isServerPortAvailable` and `closeServer`;
* an availability oracle `Nat → Bool` (elapsed milliseconds to bindability)
  models the environment seen by `waitUntilServerPortIsAvailable`;
* an environment record models the race outcome, terminal exit status
  observations and the user's prompt choice inside `openBrowserWhenReady`,
  whose observable behaviour is returned as a list of effects.
-/

/-! ### `isPortOpen` (net-utils.ts lines 13-40)

The promise is settled by socket callbacks: the connect callback resolves
`true` (then calls `client.end()`, which later emits `close`); the
`timeout`, `error` and `close` listeners reject.  A JavaScript promise keeps
the first settlement and ignores every later `resolve`/`reject` call. -/

/-- The socket events that can fire inside `isPortOpen`. -/
inductive SocketEvent where
  | connectOk
  | timedOut
  | errEvent
  | closed
  deriving DecidableEq, Repr

/-- What a single socket event does to the promise when it is the first to
settle it: connect resolves `true`; timeout, error and close reject. -/
def settleEvent : SocketEvent → Except String Bool
  | .connectOk => .ok true
  | .timedOut => .error "Timed out"
  | .errEvent => .error "connection error"
  | .closed => .error "Connection closed"

/-- JavaScript promise settlement: once settled, later `resolve`/`reject`
calls are ignored. -/
def promiseSettle (s : Option (Except String Bool)) (e : SocketEvent) :
    Option (Except String Bool) :=
  match s with
  | some o => some o
  | none => some (settleEvent e)

/-- The outcome of `isPortOpen`'s promise after the given socket events fire
in order (`none` = still pending). -/
def isPortOpenRun (events : List SocketEvent) : Option (Except String Bool) :=
  events.foldl promiseSettle none

/-! ### `isServerPortAvailable` / `closeServer` (net-utils.ts lines 83-97, 276-287)

The loopback listener state is the list of currently bound ports.
`server.listen(port, "127.0.0.1")` succeeds (the `listening` event fires)
exactly when the port is not already bound, and acquires it;
`closeServer` releases the port when the listen succeeded and is a no-op
(its error is deliberately ignored) when it did not. -/

/-- The set of ports currently bound by a listener on 127.0.0.1. -/
structure NetState where
  boundPorts : List Nat
  deriving DecidableEq, Repr

/-- `server.listen(port, "127.0.0.1")`: fires `listening` (result `true`)
and acquires the port when it is free, fires `error` (result `false`)
otherwise. -/
def listenOn (port : Nat) (st : NetState) : Bool × NetState :=
  if st.boundPorts.contains port then (false, st)
  else (true, { boundPorts := port :: st.boundPorts })

/-- `closeServer`: releases the port the server holds; when the listen
failed there is nothing to release and the close error is ignored. -/
def closeServer (bound : Option Nat) (st : NetState) : NetState :=
  match bound with
  | none => st
  | some p => { boundPorts := st.boundPorts.erase p }

/-- `isServerPortAvailable(port)`: bind an HTTP server to 127.0.0.1:port,
resolve `true` on `listening` and `false` on `error`, and in both cases
close the test listener (`.finally`) before the promise is handed back. -/
def isServerPortAvailable (port : Nat) (st : NetState) : Bool × NetState :=
  let r := listenOn port st
  let st2 := closeServer (if r.1 then some port else none) r.2
  (r.1, st2)

/-! ### `retryUntilTimeout` (BoundedRetry)

`retryUntilTimeout` is imported from `src/retry-utils.ts`, which is not part
of the staged sources; it is modelled from the spec's BoundedRetry contract.
Time is discrete (milliseconds of elapsed wall time); the probe is a
function from elapsed time to an optional success value (`none` = the
attempt failed, i.e. the callback threw, which is the retry signal). -/

/-- Modelled from the spec: `retryUntilTimeout` (src/retry-utils.ts is not
in the staged sources).  BoundedRetry §4.1: invoke the probe; on success
return its value; on failure sleep `interval` ms and, if the elapsed time
has not exceeded `timeout`, try again; deadline exhaustion returns `none`
(absence, not an exception).  `fuel` bounds the recursion and is chosen
large enough in `retryUntilTimeout` that the deadline check, not the fuel,
ends the loop. -/
def retryGo (probe : Nat → Option α) (interval timeout : Nat) :
    Nat → Nat → Option α
  | 0, _ => none
  | fuel + 1, elapsed =>
    match probe elapsed with
    | some v => some v
    | none =>
      if elapsed + interval ≤ timeout then
        retryGo probe interval timeout fuel (elapsed + interval)
      else none

/-- Modelled from the spec: BoundedRetry entry point.  Attempts start at
elapsed time 0 and recur every `interval` ms while the deadline allows. -/
def retryUntilTimeout (timeout : Nat) (probe : Nat → Option α)
    (interval : Nat) : Option α :=
  retryGo probe interval timeout (timeout / interval + 1) 0

/-! ### `waitUntilServerPortIsAvailable` (net-utils.ts lines 52-72)

The bindability of the port over time is abstracted as an oracle
`avail : Nat → Bool` giving the outcome `isServerPortAvailable(port)` would
have at each elapsed instant. -/

/-- `waitUntilServerPortIsAvailable(port, timeout)`: retry the bindability
probe every 80 ms under the outer timeout; the callback returns `true` when
the probe succeeds and throws otherwise; the absent result of a timed-out
retry sequence is converted to `false`. -/
def waitUntilServerPortIsAvailable (avail : Nat → Bool) (timeout : Nat) :
    Bool :=
  match retryUntilTimeout timeout
      (fun t => if avail t then some true else none) 80 with
  | some true => true
  | _ => false

/-! ### `suggestPort` / `UNSAFE_PORTS` (net-utils.ts lines 252-274, 292-299)

The OS's ephemeral-port assignment is abstracted as a stream
`assign : Nat → Nat`: the n-th bind to port 0 yields port `assign n`.
The source loop has no iteration cap; the model adds explicit fuel, with
`none` standing for the loop still running after `fuel` iterations. -/

/-- Ports that are considered unsafe by Chrome (net-utils.ts lines 292-299). -/
def UNSAFE_PORTS : List Nat :=
  [1, 7, 9, 11, 13, 15, 17, 19, 20, 21, 22, 23, 25, 37, 42, 43, 53, 69, 77,
   79, 87, 95, 101, 102, 103, 104, 109, 110, 111, 113, 115, 117, 119, 123,
   135, 137, 139, 143, 161, 179, 389, 427, 465, 512, 513, 514, 515, 526,
   530, 531, 532, 540, 548, 554, 556, 563, 587, 601, 636, 989, 990, 993,
   995, 1719, 1720, 1723, 2049, 3659, 4045, 5060, 5061, 6000, 6566, 6665,
   6666, 6667, 6668, 6669, 6697, 10080]

/-- `suggestPort()`: bind to port 0, read back the OS-assigned ephemeral
port, close the listener, and return the port unless it is on the unsafe
blocklist, in which case loop and acquire a new candidate. -/
def suggestPortAux (assign : Nat → Nat) : Nat → Nat → Option Nat
  | 0, _ => none
  | fuel + 1, n =>
    let port := assign n
    if UNSAFE_PORTS.contains port then suggestPortAux assign fuel (n + 1)
    else some port

/-! ### `openBrowserWhenReady` (net-utils.ts lines 134-212)

One invocation is modelled as a step function from an environment (the
settled race outcome, the terminal's exit-status observations and the
user's prompt choice) to the list of observable effects it performs, in
order.  A recursive re-invocation (`return openBrowserWhenReady(...)`) is
the `recurse` effect carrying the exact arguments passed. -/

/-- The observable effects of one `openBrowserWhenReady` invocation. -/
inductive Effect where
  /-- `console.warn(msg)`. -/
  | warnLog (msg : String)
  /-- `showErrorMessage` timeout prompt: `floor(timeout/1000)` seconds in
  the message, a "Show Shiny process" button only when a terminal exists. -/
  | promptTimeout (timeoutSecs : Nat) (offerShowProcess : Bool)
  /-- `showErrorMessage(msg)` with no buttons. -/
  | errorMsg (msg : String)
  /-- `terminal.show()`. -/
  | showTerminal
  /-- The tail call `openBrowserWhenReady(port, additionalPorts, terminal,
  timeout)`; the terminal is identified by an abstract id. -/
  | recurse (port : Nat) (additionalPorts : List Nat)
      (terminal : Option Nat) (timeout : Nat)
  /-- `getRemoteSafeUrl(port)` followed by `openBrowser(previewUrl)`. -/
  | launchBrowser (port : Nat)
  deriving DecidableEq, Repr

/-- The settled value of the `withProgress` body: either the array produced
by `Promise.all` over the per-port waits, or the `true` produced by
`getTerminalClosedPromise` when the terminal-closed event wins the race. -/
inductive RaceOutcome where
  | portsResult (results : List Bool)
  | terminalClosed
  deriving DecidableEq, Repr

/-- Environment of one `openBrowserWhenReady` invocation: resolved
configuration, per-port wait results, which promise settles the race first,
the two `terminal?.exitStatus !== undefined` observations (line 180 and
line 193), and the button the user picks on the timeout prompt. -/
structure OrchEnv where
  previewType : String
  raceResults : List Bool
  terminalClosedFirst : Bool
  exitAtRaceCheck : Bool
  exitAtDecision : Bool
  userChoice : Option String
  deriving DecidableEq, Repr

/-- One invocation of `openBrowserWhenReady(port, additionalPorts,
terminal, timeout)` under environment `env`, as its ordered list of
observable effects. -/
def openBrowserWhenReadyStep (env : OrchEnv) (port : Nat)
    (additionalPorts : List Nat) (terminal : Option Nat) (timeout : Nat) :
    List Effect :=
  if env.previewType == "none" then []
  else
    let portsOpenResult : RaceOutcome :=
      match terminal with
      | none => .portsResult env.raceResults
      | some _ =>
        if env.terminalClosedFirst then .terminalClosed
        else .portsResult env.raceResults
    match portsOpenResult with
    | .terminalClosed =>
      [.warnLog "[shiny] Terminal has been closed, will not launch browser"]
    | .portsResult results =>
      if terminal.isSome && env.exitAtRaceCheck then
        [.warnLog "[shiny] Terminal has been closed, will not launch browser"]
      else if 0 < (results.filter (fun p => !p)).length then
        .promptTimeout (timeout / 1000) terminal.isSome ::
          (match env.userChoice with
           | some action =>
             if action == "Keep waiting" then
               if terminal.isSome && env.exitAtDecision then
                 [.errorMsg "Shiny terminal was closed, please run the app again."]
               else [.recurse port additionalPorts terminal 30000]
             else if action == "Show Shiny process" then
               (if terminal.isSome then [Effect.showTerminal] else []) ++
                 [.warnLog "[shiny] Failed to connect to Shiny app, not launching browser"]
             else
               [.warnLog "[shiny] Failed to connect to Shiny app, not launching browser"]
           | none =>
             [.warnLog "[shiny] Failed to connect to Shiny app, not launching browser"])
      else [.launchBrowser port]

/-! ### Progress reporting inside `openBrowserWhenReady` (lines 151-166)

`reportProgress` closes over `lastProgressReport` (initially the session
start time `t0`): each call reports
`((now - lastProgressReport) / timeout) * 100` and then sets
`lastProgressReport := now`.  Times and increments are rationals. -/

/-- The increments reported by successive `reportProgress()` calls at the
given times, starting from last-report time `t0`. -/
def progressIncrements (timeout t0 : ℚ) : List ℚ → List ℚ
  | [] => []
  | t :: ts => ((t - t0) / timeout * 100) :: progressIncrements timeout t ts

/-! ### `openBrowser` (net-utils.ts lines 220-250) -/

/-- Where `openBrowser(url)` sends the URL. -/
inductive BrowserAction where
  | noAction
  | externalOpen (url : String)
  | hostPreview (url : String)
  | simpleBrowser (url : String)
  deriving DecidableEq, Repr

/-- `openBrowser(url)`: dispatch on the configured preview type.  `none` is
a no-op; `external` opens externally except for `about:blank`;
`internal` uses the extension-host preview when available and otherwise
falls through to the `simpleBrowser` default, as does any other value. -/
def openBrowser (previewType : String) (hasHostPreview : Bool)
    (url : String) : BrowserAction :=
  if previewType == "none" then .noAction
  else if previewType == "external" then
    if url == "about:blank" then .noAction else .externalOpen url
  else if previewType == "internal" && hasHostPreview then .hostPreview url
  else .simpleBrowser url

/-! ### `ProposedFilePreviewProvider.provideTextDocumentContent`
(src/unnamed/part_001 lines 40-52)

The provider's `files` record is an association list from path to file
content (the last `addFile` for a name wins, as assignment to a record
key does). -/

/-- Look up `this.files[path]`: the most recently stored content, if any. -/
def filesLookup (files : List (String × String)) (path : String) :
    Option String :=
  match files with
  | [] => none
  | (name, content) :: rest =>
    match filesLookup rest path with
    | some c => some c
    | none => if name == path then some content else none

/-- `provideTextDocumentContent(uri)`: empty string for `/empty/` paths and
for unregistered paths, the stored content otherwise; always returns a
string. -/
def provideTextDocumentContent (files : List (String × String))
    (uriPath : String) : String :=
  if uriPath.startsWith "/empty/" then ""
  else
    match filesLookup files uriPath with
    | none => ""
    | some content => content

/-! ## Theorems -/

/-- Helper: a settled promise ignores every later event. -/
theorem foldl_promiseSettle_settled (l : List SocketEvent)
    (o : Except String Bool) : l.foldl promiseSettle (some o) = some o := by
  induction l with
  | nil => rfl
  | cons e l ih => simpa [promiseSettle] using ih

/-- C9: once `isPortOpen`'s connection attempt succeeds and the promise is
resolved with `true`, no subsequently emitted socket event (including the
`close` event produced by the probe's own `client.end()` and any later
`error`) can change the outcome. -/
theorem isPortOpen_resolved_stays (evs more : List SocketEvent)
    (h : isPortOpenRun evs = some (Except.ok true)) :
    isPortOpenRun (evs ++ more) = some (Except.ok true) := by
  unfold isPortOpenRun at h ⊢
  rw [List.foldl_append, h, foldl_promiseSettle_settled]

/-- Witness for C9: the connect event resolves `true`, and the `close`
emitted by `client.end()` plus a later `error` leave the outcome intact. -/
theorem isPortOpen_resolved_stays_witness :
    isPortOpenRun ([SocketEvent.connectOk] ++
      [SocketEvent.closed, SocketEvent.errEvent]) = some (Except.ok true) :=
  isPortOpen_resolved_stays [SocketEvent.connectOk]
    [SocketEvent.closed, SocketEvent.errEvent] rfl

/-- C3: `isServerPortAvailable(port)` resolves `true` exactly when binding
127.0.0.1:port succeeds and `false` when the bind fails; on every outcome
the test listener is closed before the call returns, so the listener state
is unchanged and two successive calls on the same free port both report
available. -/
theorem isServerPortAvailable_spec (port : Nat) (st : NetState) :
    (isServerPortAvailable port st).1 = !st.boundPorts.contains port ∧
    (isServerPortAvailable port st).2 = st ∧
    (st.boundPorts.contains port = false →
      (isServerPortAvailable port st).1 = true ∧
      (isServerPortAvailable port (isServerPortAvailable port st).2).1 =
        true) := by
  cases st with
  | mk bound =>
    by_cases h : port ∈ bound <;>
      simp [isServerPortAvailable, listenOn, closeServer, h,
        List.erase_cons_head]

/-- C10: `provideTextDocumentContent` is total over text lookups: empty
string for `/empty/` paths and for unregistered paths, the stored content
otherwise; it always returns a string. -/
theorem provideTextDocumentContent_total (files : List (String × String))
    (uriPath : String) :
    (uriPath.startsWith "/empty/" = true →
      provideTextDocumentContent files uriPath = "") ∧
    (filesLookup files uriPath = none →
      provideTextDocumentContent files uriPath = "") ∧
    (∀ c, uriPath.startsWith "/empty/" = false →
      filesLookup files uriPath = some c →
      provideTextDocumentContent files uriPath = c) := by
  unfold provideTextDocumentContent
  by_cases h : uriPath.startsWith "/empty/" <;> simp [h]
  exact ⟨fun hn => by rw [hn], fun c hc => by rw [hc]⟩

/-- C7: `openBrowser("about:blank")` with preview type `external` performs
no external-open call; every other URL under `external` is handed to the
external-open facility. -/
theorem openBrowser_external_spec (hasHostPreview : Bool) :
    openBrowser "external" hasHostPreview "about:blank" =
      BrowserAction.noAction ∧
    ∀ url : String, url ≠ "about:blank" →
      openBrowser "external" hasHostPreview url =
        BrowserAction.externalOpen url := by
  refine ⟨rfl, fun url h => ?_⟩
  simp [openBrowser, h]

/-- C8: each progress report carries the incremental delta
`((now - lastReportTime) / timeout) * 100` and updates the last-report
timestamp, so the increments reported within one probing session sum to
the total elapsed fraction of the deadline. -/
theorem progressIncrements_sum (timeout t0 : ℚ) (ts : List ℚ) :
    (progressIncrements timeout t0 ts).sum =
      (ts.getLastD t0 - t0) / timeout * 100 := by
  induction ts generalizing t0 with
  | nil => simp [progressIncrements]
  | cons t ts ih =>
    rw [progressIncrements, List.sum_cons, ih t, List.getLastD_cons]
    ring

/-- Helper: a successful bounded retry succeeded at one of the attempt
instants `elapsed + k * interval` within the deadline. -/
theorem retryGo_some_exists {α : Type} (probe : Nat → Option α)
    (interval timeout : Nat) (v : α) :
    ∀ fuel elapsed, elapsed ≤ timeout →
      retryGo probe interval timeout fuel elapsed = some v →
      ∃ k, elapsed + k * interval ≤ timeout ∧
        probe (elapsed + k * interval) = some v := by
  intro fuel
  induction fuel with
  | zero => intro e he h; simp [retryGo] at h
  | succ f ih =>
    intro e he h
    unfold retryGo at h
    cases hp : probe e with
    | some w =>
      rw [hp] at h
      exact ⟨0, by simpa using he, by simpa [hp] using h⟩
    | none =>
      rw [hp] at h
      by_cases hle : e + interval ≤ timeout
      · rw [if_pos hle] at h
        obtain ⟨k, hk1, hk2⟩ := ih (e + interval) hle h
        have harith : e + interval + k * interval = e + (k + 1) * interval :=
          by ring
        exact ⟨k + 1, by rw [← harith]; exact hk1, by rw [← harith]; exact hk2⟩
      · rw [if_neg hle] at h
        exact absurd h (by simp)

/-- Helper: if some attempt instant within the deadline would find the port
bindable, the bounded retry over the bindability probe succeeds, given
enough fuel. -/
theorem retryGo_avail_some (avail : Nat → Bool) (interval timeout : Nat) :
    ∀ fuel k elapsed, k < fuel → elapsed + k * interval ≤ timeout →
      avail (elapsed + k * interval) = true →
      retryGo (fun t => if avail t then some true else none) interval timeout
        fuel elapsed = some true := by
  intro fuel
  induction fuel with
  | zero => intro k e hk; omega
  | succ f ih =>
    intro k e hk hle hav
    unfold retryGo
    by_cases h0 : avail e
    · simp [h0]
    · have hk0 : k ≠ 0 := by
        intro hz
        rw [hz] at hav
        simp at hav
        exact h0 hav
      obtain ⟨k', rfl⟩ : ∃ k', k = k' + 1 := ⟨k - 1, by omega⟩
      have harith : e + (k' + 1) * interval = e + interval + k' * interval :=
        by ring
      have hle' : e + interval + k' * interval ≤ timeout := by
        rw [← harith]; exact hle
      have hstep : e + interval ≤ timeout := by omega
      have hav' : avail (e + interval + k' * interval) = true := by
        rw [← harith]; exact hav
      simp only [h0, if_false, if_pos hstep]
      exact ih k' (e + interval) (by omega) hle' hav'

/-- C4: `waitUntilServerPortIsAvailable(port, timeout)` retries the
bindability probe at an 80 ms cadence under the outer timeout and always
returns a boolean: `true` exactly when some retry attempt found the port
bindable within the timeout, and `false` otherwise (absence is converted,
never surfaced). -/
theorem waitUntilServerPortIsAvailable_spec (avail : Nat → Bool)
    (timeout : Nat) :
    waitUntilServerPortIsAvailable avail timeout = true ↔
      ∃ k, k * 80 ≤ timeout ∧ avail (k * 80) = true := by
  constructor
  · intro h
    unfold waitUntilServerPortIsAvailable at h
    cases hr : retryUntilTimeout timeout
        (fun t => if avail t then some true else none) 80 with
    | none => rw [hr] at h; simp at h
    | some b =>
      rw [hr] at h
      cases b with
      | false => simp at h
      | true =>
        unfold retryUntilTimeout at hr
        obtain ⟨k, hk1, hk2⟩ :=
          retryGo_some_exists _ 80 timeout true _ 0 (Nat.zero_le _) hr
        refine ⟨k, by simpa using hk1, ?_⟩
        by_cases hav : avail (k * 80)
        · exact hav
        · rw [Nat.zero_add] at hk2
          rw [if_neg hav] at hk2
          exact absurd hk2 (by simp)
  · rintro ⟨k, hk1, hk2⟩
    have hkf : k < timeout / 80 + 1 := by
      have : k ≤ timeout / 80 := (Nat.le_div_iff_mul_le (by norm_num)).mpr hk1
      omega
    have h := retryGo_avail_some avail 80 timeout
      (timeout / 80 + 1) k 0 hkf (by simpa using hk1) (by simpa using hk2)
    unfold waitUntilServerPortIsAvailable retryUntilTimeout
    rw [h]

/-- C5: every port returned by `suggestPort()` is in `[1, 65535]` (given
that the OS assigns ephemeral ports in that range) and is not on the
`UNSAFE_PORTS` blocklist: a blocklisted candidate is never returned, the
loop acquires a new candidate instead. -/
theorem suggestPort_safe (assign : Nat → Nat) (fuel n p : Nat)
    (hrange : ∀ m, 1 ≤ assign m ∧ assign m ≤ 65535)
    (h : suggestPortAux assign fuel n = some p) :
    1 ≤ p ∧ p ≤ 65535 ∧ UNSAFE_PORTS.contains p = false := by
  induction fuel generalizing n with
  | zero => simp [suggestPortAux] at h
  | succ f ih =>
    unfold suggestPortAux at h
    by_cases hc : UNSAFE_PORTS.contains (assign n) = true
    · rw [if_pos hc] at h
      exact ih (n + 1) h
    · rw [if_neg hc] at h
      have hp : assign n = p := by
        simpa using h
      subst hp
      exact ⟨(hrange n).1, (hrange n).2, by simpa using hc⟩

/-- Witness for C5: the OS hands out unsafe port 22 first, then 8000; the
loop skips 22 and returns 8000, which is in range and off the blocklist. -/
theorem suggestPort_safe_witness :
    1 ≤ 8000 ∧ 8000 ≤ 65535 ∧ UNSAFE_PORTS.contains 8000 = false :=
  suggestPort_safe (fun m => if m = 0 then 22 else 8000) 2 0 8000
    (fun m => by by_cases hm : m = 0 <;> simp [hm]) (by decide)

/-- C1: when the ports-wait times out (some port result is false) and the
user selects "Keep waiting" while the terminal has not exited, the
orchestration is re-invoked with the identical primary port, identical
additional ports, identical terminal and a timeout of exactly 30000 ms,
whatever the original timeout was; since the recursion timeout never
depends on the incoming one, repeated selections stay at 30000 ms. -/
theorem openBrowserWhenReady_keepWaiting_recurses (env : OrchEnv)
    (port : Nat) (additionalPorts : List Nat) (terminal : Option Nat)
    (timeout : Nat)
    (hpt : env.previewType ≠ "none")
    (hrace : env.terminalClosedFirst = false)
    (hexit1 : env.exitAtRaceCheck = false)
    (htimedOut : 0 < (env.raceResults.filter (fun p => !p)).length)
    (hchoice : env.userChoice = some "Keep waiting")
    (hexit2 : env.exitAtDecision = false) :
    openBrowserWhenReadyStep env port additionalPorts terminal timeout =
      [.promptTimeout (timeout / 1000) terminal.isSome,
       .recurse port additionalPorts terminal 30000] := by
  unfold openBrowserWhenReadyStep
  cases terminal <;>
    simp [hpt, hrace, hexit1, htimedOut, hchoice, hexit2]

/-- Witness for C1: one port timed out under a 200 ms deadline, the user
keeps waiting, the terminal is alive: the re-invocation carries the same
port 8000, the same additional port 3000, the same terminal and 30000 ms. -/
theorem openBrowserWhenReady_keepWaiting_recurses_witness :
    openBrowserWhenReadyStep
      { previewType := "internal", raceResults := [false],
        terminalClosedFirst := false, exitAtRaceCheck := false,
        exitAtDecision := false, userChoice := some "Keep waiting" }
      8000 [3000] (some 0) 200 =
      [.promptTimeout 0 true, .recurse 8000 [3000] (some 0) 30000] :=
  openBrowserWhenReady_keepWaiting_recurses _ 8000 [3000] (some 0) 200
    (by decide) rfl rfl (by decide) rfl rfl

/-- C2: with a terminal supplied, if the terminal-closed event settles the
race first, or the terminal's exit status is set when the race result is
inspected, then no browser action is performed and no prompt is shown: the
warning log is the only observable effect and the invocation returns. -/
theorem openBrowserWhenReady_terminalClosed_warnsOnly (env : OrchEnv)
    (port : Nat) (additionalPorts : List Nat) (t : Nat) (timeout : Nat)
    (hpt : env.previewType ≠ "none")
    (hclosed : env.terminalClosedFirst = true ∨ env.exitAtRaceCheck = true) :
    openBrowserWhenReadyStep env port additionalPorts (some t) timeout =
      [.warnLog "[shiny] Terminal has been closed, will not launch browser"]
    := by
  unfold openBrowserWhenReadyStep
  rcases hclosed with h | h <;>
    by_cases hf : env.terminalClosedFirst <;> simp_all

/-- Witness for C2: the terminal closes 50 ms into a 1000 ms wait; the
effect list is exactly the single warning. -/
theorem openBrowserWhenReady_terminalClosed_warnsOnly_witness :
    openBrowserWhenReadyStep
      { previewType := "internal", raceResults := [true],
        terminalClosedFirst := true, exitAtRaceCheck := false,
        exitAtDecision := false, userChoice := none }
      8000 [] (some 0) 1000 =
      [.warnLog "[shiny] Terminal has been closed, will not launch browser"]
    :=
  openBrowserWhenReady_terminalClosed_warnsOnly _ 8000 [] 0 1000
    (by decide) (Or.inl rfl)

/-- C6: when the wait timed out, the user selects "Keep waiting" but the
terminal's exit status is already set at decision time, an explicit error
message instructing the user to re-run the app is shown and the invocation
stops: no recursive re-invocation and no browser action. -/
theorem openBrowserWhenReady_exitAtDecision_stops (env : OrchEnv)
    (port : Nat) (additionalPorts : List Nat) (t : Nat) (timeout : Nat)
    (hpt : env.previewType ≠ "none")
    (hrace : env.terminalClosedFirst = false)
    (hexit1 : env.exitAtRaceCheck = false)
    (htimedOut : 0 < (env.raceResults.filter (fun p => !p)).length)
    (hchoice : env.userChoice = some "Keep waiting")
    (hexit2 : env.exitAtDecision = true) :
    openBrowserWhenReadyStep env port additionalPorts (some t) timeout =
      [.promptTimeout (timeout / 1000) true,
       .errorMsg "Shiny terminal was closed, please run the app again."] := by
  unfold openBrowserWhenReadyStep
  simp [hpt, hrace, hexit1, htimedOut, hchoice, hexit2]

/-- Witness for C6: the wait timed out, the user keeps waiting, but the
terminal has already exited: the only further effect is the re-run error
message. -/
theorem openBrowserWhenReady_exitAtDecision_stops_witness :
    openBrowserWhenReadyStep
      { previewType := "internal", raceResults := [false],
        terminalClosedFirst := false, exitAtRaceCheck := false,
        exitAtDecision := true, userChoice := some "Keep waiting" }
      8000 [] (some 0) 200 =
      [.promptTimeout 0 true,
       .errorMsg "Shiny terminal was closed, please run the app again."] :=
  openBrowserWhenReady_exitAtDecision_stops _ 8000 [] 0 200
    (by decide) rfl rfl (by decide) rfl rfl
